import Mathlib

/-!
Shallow embedding of `src/packages/indexer-common/src/transactions.ts`
(the `TransactionManager` class): the transaction submission engine, its
fee policy (`waitForGasPricesBelowThreshold`), fee-mechanism classifier
(`transactionType`), the retry classifier (`updateTransactionConfig`),
the revert diagnoser (`getRevertReason`) and the event extractor
(`findEvent`).

Modelling conventions:
* `BigNumber` amounts and JS numbers become `Nat` (all quantities in the
  source are non-negative fee/nonce/gas values); the one place a
  subtraction can go negative (the base-fee recovery in
  `waitForGasPricesBelowThreshold`) is computed on `Int` with
  truncating division `Int.tdiv`, matching `BigNumber.div`.
* `null`/`undefined`-able fields become `Option`.
* Thrown errors become `Except`; `async` effects (provider calls, the
  wallet, `delay`) become oracles supplied in an environment plus an
  explicit effect trace, so that claims about which collaborators were
  invoked (and with which arguments) are statements about the trace.
-/

/-- JS `String.prototype.includes`: substring containment on the
character sequence. -/
def strIncludes (s pat : String) : Bool :=
  decide (pat.data <:+: s.data)

/-- The indexer error codes raised by this module (from `errors.ts`,
only the codes `transactions.ts` uses). -/
inductive IndexerErrorCode where
  | IE050
  | IE051
  | IE057
  | IE058
  deriving DecidableEq, Repr

/-- An error flowing through the retry loop: either an `IndexerError`
(with its code) or a plain `Error` identified by its message, mirroring
the `instanceof` dispatch in `updateTransactionConfig`. -/
inductive TxError where
  | indexer (code : IndexerErrorCode)
  | plain (message : String)
  deriving DecidableEq, Repr

/-- `providers.FeeData` (the three nullable fee fields read by this
module). -/
structure FeeData where
  gasPrice : Option Nat
  maxFeePerGas : Option Nat
  maxPriorityFeePerGas : Option Nat
  deriving DecidableEq, Repr

/-- `TransactionType` from `types.ts`: legacy (type 0) vs EIP-1559
(type 2) transactions. -/
inductive TransactionType where
  | ZERO
  | TWO
  deriving DecidableEq, Repr

/-- `TransactionConfig` from `types.ts`, as populated and mutated by
`executeTransaction` / `updateTransactionConfig`. -/
structure TransactionConfig where
  attempt : Nat
  type : TransactionType
  gasBump : Nat
  nonce : Nat
  maxFeePerGas : Option Nat
  maxPriorityFeePerGas : Option Nat
  gasPrice : Option Nat
  gasLimit : Nat
  deriving DecidableEq, Repr

/-- Renders a nullable fee field the way a JS template literal renders
it (`null` for a missing value, the decimal string otherwise). -/
def fmtFeeField : Option Nat → String
  | none => "null"
  | some n => toString n

/-- The validation-error message built by `transactionType` (the
`maxFeePerGass` typo is the source's). -/
def feeValidationMessage (data : FeeData) : String :=
  "Network fee data failed validation: gasPrice: " ++ fmtFeeField data.gasPrice ++
    ", maxPriorityFeePerGas: " ++ fmtFeeField data.maxPriorityFeePerGas ++
    ", maxFeePerGass: " ++ fmtFeeField data.maxFeePerGas

/-- `TransactionManager.transactionType`: TWO when both modern fields
are present, ZERO when `gasPrice` is present, otherwise throws the
validation error. (`BigNumber` values are always truthy in JS, so
presence is exactly non-nullness.) -/
def transactionType (data : FeeData) : Except TxError TransactionType :=
  match data.maxPriorityFeePerGas, data.maxFeePerGas with
  | some _, some _ => .ok .TWO
  | _, _ =>
    match data.gasPrice with
    | some _ => .ok .ZERO
    | none => .error (.plain (feeValidationMessage data))

/-- `TransactionManager.updateTransactionConfig`. Success means the
loop retries with the returned config; `.error (d?, e)` means the call
raises `e` (after `delay d` when `d?` is `some d`), leaving the config
unmutated. `BigNumber.from(undefined)` throwing (a fee field required
by the config's type being absent) is modelled by the
`"invalid BigNumber value"` error. -/
def updateTransactionConfig (txConfig : TransactionConfig) (error : TxError) :
    Except (Option Nat × TxError) TransactionConfig :=
  match error with
  | .indexer code =>
    if code = .IE050 then
      .ok { txConfig with
              gasLimit := txConfig.gasLimit * txConfig.gasBump / 1000,
              nonce := txConfig.nonce + 1,
              attempt := txConfig.attempt + 1 }
    else if code = .IE051 then
      .error (none, error)
    else
      .ok { txConfig with attempt := txConfig.attempt + 1 }
  | .plain msg =>
    if strIncludes msg "Transaction with the same hash was already imported" ||
        strIncludes msg "nonce has already been used" then
      -- 30 second delay, then raise IE058: the prior broadcast may have succeeded.
      .error (some 30000, .indexer .IE058)
    else if strIncludes msg "Transaction nonce is too low. Try incrementing the nonce." then
      .ok { txConfig with nonce := txConfig.nonce + 1, attempt := txConfig.attempt + 1 }
    else if strIncludes msg "Try increasing the fee" ||
        strIncludes msg "gas price supplied is too low" ||
        strIncludes msg "timeout exceeded" then
      match txConfig.type with
      | .ZERO =>
        match txConfig.gasPrice with
        | some p =>
          .ok { txConfig with
                  gasPrice := some (p * txConfig.gasBump / 1000),
                  attempt := txConfig.attempt + 1 }
        | none => .error (none, .plain "invalid BigNumber value")
      | .TWO =>
        match txConfig.maxFeePerGas with
        | some f =>
          match txConfig.maxPriorityFeePerGas with
          | some pr =>
            .ok { txConfig with
                    maxFeePerGas := some (f * txConfig.gasBump / 1000),
                    maxPriorityFeePerGas := some (pr * txConfig.gasBump / 1000),
                    attempt := txConfig.attempt + 1 }
          | none => .error (none, .plain "invalid BigNumber value")
        | none => .error (none, .plain "invalid BigNumber value")
    else
      .ok { txConfig with attempt := txConfig.attempt + 1 }

/-- Value of one hex digit. -/
def hexVal? (c : Char) : Option Nat :=
  if '0' ≤ c ∧ c ≤ '9' then some (c.toNat - '0'.toNat)
  else if 'a' ≤ c ∧ c ≤ 'f' then some (c.toNat - 'a'.toNat + 10)
  else if 'A' ≤ c ∧ c ≤ 'F' then some (c.toNat - 'A'.toNat + 10)
  else none

/-- Decode consecutive hex-digit pairs to characters (byte-per-char,
exact for the ASCII revert payloads this module compares against). -/
def hexPairsToChars : List Char → List Char
  | h :: l :: rest =>
    (match hexVal? h, hexVal? l with
     | some a, some b => [Char.ofNat (16 * a + b)]
     | _, _ => []) ++ hexPairsToChars rest
  | _ => []

/-- Models `utils.toUtf8String('0x' + code.substr(138))` in
`getRevertReason`: take the returned call data from character 138 on
and decode it as text. (The ethers decoder is an external library;
this models it byte-per-char, which agrees on the ASCII reason strings
the engine compares against.) -/
def decodeRevertHex (code : String) : String :=
  String.mk (hexPairsToChars (code.drop 138).data)

/-- Oracle for `this.ethereum.call(txRequest)` inside
`getRevertReason`: the call either returns data or throws an error
with a `body` string. -/
inductive EthCallResult where
  | returned (code : String)
  | threw (body : String)
  deriving DecidableEq, Repr

/-- `TransactionManager.getRevertReason`: replay the request read-only;
on returned data decode the reason text from offset 138; on a thrown
error whose body mentions out-of-gas the reason is `"out of gas"`,
otherwise IE051 is raised. (The initial `"unknown"` value of
`revertReason` is only observable when the call path assigns nothing
else, so the returned branch carries the decoded text.) -/
def getRevertReason (callResult : EthCallResult) : Except TxError String :=
  match callResult with
  | .returned code => .ok (decodeRevertHex code)
  | .threw body =>
    if strIncludes body "out of gas" then .ok "out of gas"
    else .error (.indexer .IE051)

/-- The reference fee `waitForGasPricesBelowThreshold` compares against
the ceiling: the recovered base fee `(maxFeePerGas - maxPriorityFeePerGas)
/ 2` (truncating `BigNumber` division) for type-2 fee data, `gasPrice`
for legacy fee data. -/
def referenceFee (t : TransactionType) (feeData : FeeData) : Int :=
  match t with
  | .TWO =>
    Int.tdiv ((feeData.maxFeePerGas.getD 0 : Int) - (feeData.maxPriorityFeePerGas.getD 0 : Int)) 2
  | .ZERO => (feeData.gasPrice.getD 0 : Int)

/-- Result of the fee-wait loop: `settled feeData waits` returns
`feeData` after issuing `waits` 30-second delays; `threw` propagates
the `transactionType` validation error; `diverged` is a model artifact
marking that the supplied poll sequence ran out while every snapshot
was still at or above the ceiling (the source loop would keep
polling). -/
inductive WaitOutcome where
  | settled (feeData : FeeData) (waits : Nat)
  | threw (e : TxError)
  | diverged (waits : Nat)
  deriving DecidableEq, Repr

/-- `TransactionManager.waitForGasPricesBelowThreshold`, driven by the
sequence of `getFeeData()` snapshots: poll; if the reference fee is
`>= adjustedBaseFeePerGasMax`, delay 30s and poll again, else accept
(nulling `gasPrice` in the type-2 case). `waits` accumulates the
delays issued so far. -/
def waitForGasPricesBelowThreshold (maxFee : Nat) :
    List FeeData → Nat → WaitOutcome
  | [], waits => .diverged waits
  | feeData :: rest, waits =>
    match transactionType feeData with
    | .error e => .threw e
    | .ok .TWO =>
      if referenceFee .TWO feeData ≥ (maxFee : Int) then
        waitForGasPricesBelowThreshold maxFee rest (waits + 1)
      else
        .settled { feeData with gasPrice := none } waits
    | .ok .ZERO =>
      if referenceFee .ZERO feeData ≥ (maxFee : Int) then
        waitForGasPricesBelowThreshold maxFee rest (waits + 1)
      else
        .settled feeData waits

/-- The fields of an ethers `ContractTransaction` that
`executeTransaction` reads (`to`/`from`/`data` renamed to avoid Lean
keywords). -/
structure ContractTransaction where
  hash : String
  nonce : Nat
  gasLimit : Nat
  gasPrice : Option Nat
  maxFeePerGas : Option Nat
  maxPriorityFeePerGas : Option Nat
  value : Nat
  toAddr : Option String
  fromAddr : Option String
  dataField : String
  chainId : Nat
  deriving DecidableEq, Repr

/-- The `providers.TransactionRequest` literal built for resubmission
(attempt > 1) in `executeTransaction`. -/
structure TransactionRequest where
  value : Nat
  toAddr : Option String
  dataField : String
  chainId : Nat
  fromAddr : Option String
  nonce : Nat
  gasPrice : Option Nat
  maxPriorityFeePerGas : Option Nat
  maxFeePerGas : Option Nat
  gasLimit : Nat
  deriving DecidableEq, Repr

/-- The resubmission request: `value`/`to`/`data`/`chainId`/`from` from
the transaction, everything else from the current config. -/
def mkTxRequest (tx : ContractTransaction) (txConfig : TransactionConfig) :
    TransactionRequest :=
  { value := tx.value
    toAddr := tx.toAddr
    dataField := tx.dataField
    chainId := tx.chainId
    fromAddr := tx.fromAddr
    nonce := txConfig.nonce
    gasPrice := txConfig.gasPrice
    maxPriorityFeePerGas := txConfig.maxPriorityFeePerGas
    maxFeePerGas := txConfig.maxFeePerGas
    gasLimit := txConfig.gasLimit }

/-- The slice of a `providers.TransactionReceipt` the loop inspects. -/
structure TransactionReceipt where
  status : Nat
  deriving DecidableEq, Repr

/-- Trace of external calls issued by `executeTransaction`, used to
state which collaborators were (not) invoked and with which
arguments. -/
inductive Effect where
  | feePolicyCall
  | gasEstimationCall
  | buildTransaction (gasLimit : Nat)
  | sendTransaction (req : TransactionRequest)
  | revertDiagnosis (req : Option TransactionRequest)
  | delayMs (ms : Nat)
  deriving DecidableEq, Repr

deriving instance DecidableEq for Except

/-- Oracle for one iteration of the retry loop: the result of
`wallet.sendTransaction` (consulted only when `attempt > 1`), of
`ethereum.waitForTransaction`, and of the diagnoser's `ethereum.call`
(consulted only on a status-0 receipt). Errors carry the JS error
message the classifier string-matches on. -/
structure AttemptOutcome where
  sendResult : Except String ContractTransaction
  waitResult : Except String TransactionReceipt
  revertCall : EthCallResult
  deriving DecidableEq, Repr

/-- Terminal result of `executeTransaction`: the three declared
returns, the raised fatal error, the `output!` that is `undefined`
after the give-up `break`, and a model artifact for runs longer than
the supplied oracle list. -/
inductive ExecResult where
  | paused
  | unauthorized
  | receipt (r : TransactionReceipt)
  | undefinedResult
  | raised (e : TxError)
  | modelDiverged
  deriving DecidableEq, Repr

/-- One iteration of the `try` body either terminates the loop or
continues with updated `tx`/`txRequest`/`txConfig`. -/
inductive StepResult where
  | done (r : ExecResult)
  | cont (tx : ContractTransaction) (txRequest : Option TransactionRequest)
      (txConfig : TransactionConfig)
  deriving DecidableEq, Repr

/-- The `catch` handler: classify via `updateTransactionConfig`; a
classifier raise terminates the run (with its delay traced), a
classifier return continues the loop. -/
def classifyStep (tx : ContractTransaction) (txRequest : Option TransactionRequest)
    (txConfig : TransactionConfig) (e : TxError) (effs : List Effect) :
    StepResult × List Effect :=
  match updateTransactionConfig txConfig e with
  | .error (d?, e') =>
    (.done (.raised e'), effs ++ (match d? with | some d => [.delayMs d] | none => []))
  | .ok txConfig' => (.cont tx txRequest txConfig', effs)

/-- The tail of one loop iteration, from `waitForTransaction` on
(shared by the first attempt and resubmissions): await the receipt; on
a status-0 receipt diagnose the revert with the current `txRequest`
and raise IE050/IE051/IE057 by reason; every raise lands in
`classifyStep`. -/
def execStepAfterSend (tx : ContractTransaction)
    (txRequest : Option TransactionRequest) (txConfig : TransactionConfig)
    (oc : AttemptOutcome) (effs : List Effect) : StepResult × List Effect :=
  match oc.waitResult with
  | .error msg => classifyStep tx txRequest txConfig (.plain msg) effs
  | .ok receipt =>
    if receipt.status = 0 then
      let effs1 := effs ++ [.revertDiagnosis txRequest]
      match getRevertReason oc.revertCall with
      | .error e => classifyStep tx txRequest txConfig e effs1
      | .ok revertReason =>
        let e : TxError :=
          if revertReason = "out of gas" then .indexer .IE050
          else if revertReason = "unknown" then .indexer .IE051
          else .indexer .IE057
        classifyStep tx txRequest txConfig e effs1
    else
      (.done (.receipt receipt), effs)

/-- The `try` body of one `while (pending)` iteration of
`executeTransaction`: resubmit when `attempt > 1` (building the
request first, so a send failure still leaves `txRequest` assigned),
then run the shared tail; on the first attempt `txRequest` keeps its
incoming value (`undefined` at loop entry). -/
def execStep (tx : ContractTransaction) (txRequest : Option TransactionRequest)
    (txConfig : TransactionConfig) (oc : AttemptOutcome) :
    StepResult × List Effect :=
  if txConfig.attempt > 1 then
    let req := mkTxRequest tx txConfig
    match oc.sendResult with
    | .error msg =>
      classifyStep tx (some req) txConfig (.plain msg) [.sendTransaction req]
    | .ok tx' =>
      execStepAfterSend tx' (some req) txConfig oc [.sendTransaction req]
  else
    execStepAfterSend tx txRequest txConfig oc []

/-- `TransactionMonitoring` configuration plus the two values the
constructor derives from it: `adjustedGasIncreaseFactor` is
`gasIncreaseFactor` scaled to permille by `parseUnits(_, 3)`, and
`adjustedBaseFeePerGasMax` is `baseFeePerGasMax || gasPriceMax`. -/
structure TransactionMonitoring where
  maxTransactionAttempts : Nat
  gasIncreaseTimeout : Nat
  adjustedGasIncreaseFactor : Nat
  adjustedBaseFeePerGasMax : Nat
  deriving DecidableEq, Repr

/-- The `while (pending)` loop: check the attempt limit (give up with a
30s delay and an undefined `output` when a nonzero limit is exceeded),
otherwise run one try/catch iteration, consuming one oracle per
iteration. An exhausted oracle list ends the model run with
`modelDiverged`. -/
def execLoop (spec : TransactionMonitoring) :
    List AttemptOutcome → ContractTransaction → Option TransactionRequest →
    TransactionConfig → ExecResult × List Effect
  | [], _, _, txConfig =>
    if spec.maxTransactionAttempts ≠ 0 ∧
        txConfig.attempt > spec.maxTransactionAttempts then
      (.undefinedResult, [.delayMs 30000])
    else
      (.modelDiverged, [])
  | oc :: rest, tx, txRequest, txConfig =>
    if spec.maxTransactionAttempts ≠ 0 ∧
        txConfig.attempt > spec.maxTransactionAttempts then
      (.undefinedResult, [.delayMs 30000])
    else
      match execStep tx txRequest txConfig oc with
      | (.done r, effs) => (r, effs)
      | (.cont tx' txRequest' txConfig', effs) =>
        let out := execLoop spec rest tx' txRequest' txConfig'
        (out.1, effs ++ out.2)

/-- Environment of one `executeTransaction` run: the two gate values,
the fee-poll sequence, the gas estimate, the transaction returned by
the builder, and the per-iteration oracles. -/
structure ExecEnv where
  paused : Bool
  isOperator : Bool
  feePolls : List FeeData
  gasEstimate : Nat
  initialTx : ContractTransaction
  outcomes : List AttemptOutcome
  deriving Repr

/-- `TransactionManager.executeTransaction`: gate on paused /
authorized, run the fee policy, pad the gas estimate by 50 percent
(`Math.ceil(estimate * 1.5)` is `(3 * estimate + 1) / 2` on naturals),
build the transaction, derive the initial `TransactionConfig`
(attempt 1) and enter the retry loop with `txRequest` undefined. -/
def executeTransaction (spec : TransactionMonitoring) (env : ExecEnv) :
    ExecResult × List Effect :=
  if env.paused then (.paused, [])
  else if !env.isOperator then (.unauthorized, [])
  else
    match waitForGasPricesBelowThreshold spec.adjustedBaseFeePerGasMax env.feePolls 0 with
    | .threw e => (.raised e, [.feePolicyCall])
    | .diverged _ => (.modelDiverged, [.feePolicyCall])
    | .settled feeData _ =>
      let paddedGasLimit := (3 * env.gasEstimate + 1) / 2
      let tx := env.initialTx
      let preEffs : List Effect :=
        [.feePolicyCall, .gasEstimationCall, .buildTransaction paddedGasLimit]
      match transactionType feeData with
      | .error e => (.raised e, preEffs)
      | .ok ttype =>
        let txConfig : TransactionConfig :=
          { attempt := 1
            type := ttype
            gasBump := spec.adjustedGasIncreaseFactor
            nonce := tx.nonce
            maxFeePerGas := tx.maxFeePerGas
            maxPriorityFeePerGas := tx.maxPriorityFeePerGas
            gasPrice := tx.gasPrice
            gasLimit := tx.gasLimit }
        let out := execLoop spec env.outcomes tx none txConfig
        (out.1, preEffs ++ out.2)

/-- One receipt log entry as read by `findEvent` (`data` renamed). -/
structure LogEntry where
  topics : List String
  dataField : String
  deriving DecidableEq, Repr

/-- The slice of an ethers `ContractReceipt` that `findEvent` reads:
`receipt.events || receipt.logs` (an empty `events` array is truthy in
JS, so only a missing `events` falls back to `logs`). -/
structure ContractReceipt where
  events : Option (List LogEntry)
  logs : List LogEntry
  deriving DecidableEq, Repr

/-- The two operations `findEvent` uses from `utils.Interface`:
computing an event's signature topic and decoding a log entry against
the ABI. A decoded event is modelled as its named fields (the
`utils.Result` entries `findEvent` indexes by `logKey`). -/
structure ContractInterface where
  getEventTopic : String → String
  decodeEventLog : String → String → List String → List (String × String)

/-- JS property read `decoded[logKey]`: `none` models `undefined`. -/
def lookupField (decoded : List (String × String)) (logKey : String) : Option String :=
  (decoded.find? (fun p => p.1 = logKey)).map (fun p => p.2)

/-- JS `toLocaleLowerCase`, modelled character-wise (agrees with the
locale-aware JS function on the ASCII address strings compared
here). -/
def toLowerStr (s : String) : String := String.mk (s.data.map Char.toLower)

/-- The decoded events `findEvent` scans: entries whose `topics`
include the expected topic, each decoded against the ABI. -/
def decodedMatchingEvents (eventType : String) (ci : ContractInterface)
    (receipt : ContractReceipt) : List (List (String × String)) :=
  let events := receipt.events.getD receipt.logs
  let expectedTopic := ci.getEventTopic eventType
  (events.filter (fun e => e.topics.contains expectedTopic)).map
    (fun e => ci.decodeEventLog eventType e.dataField e.topics)

/-- The `.find` step of `findEvent`: first decoded event whose
`logKey` field equals `logValue` case-insensitively (via
`toLowerStr`). `.error ()` models the TypeError JS raises when a
scanned decoded event lacks `logKey`. -/
def findMatching (logKey logValue : String) :
    List (List (String × String)) → Except Unit (Option (List (String × String)))
  | [] => .ok none
  | d :: rest =>
    match lookupField d logKey with
    | none => .error ()
    | some v =>
      if toLowerStr v = toLowerStr logValue then .ok (some d)
      else findMatching logKey logValue rest

/-- `TransactionManager.findEvent`: filter the receipt's log entries by
the event's signature topic, decode each, and return the first decoded
event whose `logKey` field matches `logValue` case-insensitively
(`none` when no decoded event matches). -/
def findEvent (eventType : String) (ci : ContractInterface)
    (logKey logValue : String) (receipt : ContractReceipt) :
    Except Unit (Option (List (String × String))) :=
  findMatching logKey logValue (decodedMatchingEvents eventType ci receipt)

/-! Concrete fixtures used by witnesses and counterexamples. -/

/-- A legacy-fee transaction as returned by the builder. -/
def txA : ContractTransaction :=
  { hash := "0xabc"
    nonce := 7
    gasLimit := 31500
    gasPrice := some 50
    maxFeePerGas := none
    maxPriorityFeePerGas := none
    value := 0
    toAddr := some "0xdead"
    fromAddr := some "0xbeef"
    dataField := "0x01"
    chainId := 1 }

/-- Unlimited attempts, 1.2x bump factor, fee ceiling 100. -/
def specA : TransactionMonitoring :=
  { maxTransactionAttempts := 0
    gasIncreaseTimeout := 300000
    adjustedGasIncreaseFactor := 1200
    adjustedBaseFeePerGasMax := 100 }

/-- Three-attempt limit, otherwise like `specA`. -/
def specB : TransactionMonitoring :=
  { specA with maxTransactionAttempts := 3 }

/-- Legacy config with a 1.2x (1200 permille) bump factor. -/
def cfgA : TransactionConfig :=
  { attempt := 1
    type := .ZERO
    gasBump := 1200
    nonce := 5
    maxFeePerGas := none
    maxPriorityFeePerGas := none
    gasPrice := some 100
    gasLimit := 21000 }

/-- Returned call data whose revert payload (from character 138 on)
decodes to the reason string `"AB"`. -/
def revertCodeAB : String := String.mk (List.replicate 138 '0') ++ "4142"

/-- Attempt oracle: confirmation wait yields a status-0 receipt and
the replayed call returns data whose reason decodes to `"AB"`. -/
def ocAB : AttemptOutcome :=
  { sendResult := .error "send not reached on this iteration"
    waitResult := .ok ⟨0⟩
    revertCall := .returned revertCodeAB }

/-- Attempt oracle: resubmission succeeds and confirms with status 1. -/
def ocOk : AttemptOutcome :=
  { sendResult := .ok txA
    waitResult := .ok ⟨1⟩
    revertCall := .threw "call not reached on this iteration" }

/-- Run refuting C1: first attempt reverts with diagnosed reason
`"AB"`, second attempt confirms. -/
def envC1 : ExecEnv :=
  { paused := false
    isOperator := true
    feePolls := [⟨some 50, none, none⟩]
    gasEstimate := 21000
    initialTx := txA
    outcomes := [ocAB, ocOk] }

/-- A paused network environment. -/
def envPaused : ExecEnv :=
  { envC1 with paused := true }

/-- An unpaused environment without operator authorization. -/
def envUnauth : ExecEnv :=
  { envC1 with paused := false, isOperator := false }

/-- The fee-source sequence 150, 120, 90 from the spec's example. -/
def pollsB : List FeeData :=
  [⟨some 150, none, none⟩, ⟨some 120, none, none⟩, ⟨some 90, none, none⟩]

/-- Interface fixture: every event decodes to a single `"to"` field
carrying the entry's data. -/
def ciW : ContractInterface :=
  { getEventTopic := fun _ => "0xtopicT"
    decodeEventLog := fun _ dataF _ => [("to", dataF)] }

/-- Receipt fixture: three log entries, two matching the topic, with
`"to"` fields `0xA` and `0xB`. -/
def receiptW : ContractReceipt :=
  { events := none
    logs := [⟨["0xother"], "0xZ"⟩, ⟨["0xtopicT"], "0xA"⟩, ⟨["0xtopicT", "0xmore"], "0xB"⟩] }

/-! Theorems. -/

/-- C4: `transactionType` returns TWO when both `maxFeePerGas` and
`maxPriorityFeePerGas` are present, ZERO when (the modern pair being
incomplete) `gasPrice` is present, and raises the fee-data validation
error when neither mechanism is populated. -/
theorem transactionType_classification (fd : FeeData) :
    (∀ pr mf, fd.maxPriorityFeePerGas = some pr → fd.maxFeePerGas = some mf →
      transactionType fd = .ok .TWO) ∧
    ((fd.maxPriorityFeePerGas = none ∨ fd.maxFeePerGas = none) →
      ∀ gp, fd.gasPrice = some gp → transactionType fd = .ok .ZERO) ∧
    ((fd.maxPriorityFeePerGas = none ∨ fd.maxFeePerGas = none) →
      fd.gasPrice = none →
      transactionType fd = .error (.plain (feeValidationMessage fd))) := by
  obtain ⟨gp, mf, mp⟩ := fd
  cases mp <;> cases mf <;> cases gp <;> simp [transactionType]

/-- C4 witness: the three branches at concrete fee data. -/
theorem transactionType_classification_witness :
    transactionType ⟨none, some 30, some 4⟩ = .ok .TWO ∧
    transactionType ⟨some 7, none, none⟩ = .ok .ZERO ∧
    transactionType ⟨none, none, none⟩ =
      .error (.plain (feeValidationMessage ⟨none, none, none⟩)) :=
  ⟨(transactionType_classification ⟨none, some 30, some 4⟩).1 4 30 rfl rfl,
   (transactionType_classification ⟨some 7, none, none⟩).2.1 (Or.inl rfl) 7 rfl,
   (transactionType_classification ⟨none, none, none⟩).2.2 (Or.inl rfl) rfl⟩

/-- C5: an error whose message indicates the same hash or nonce was
already broadcast makes the classifier raise IE058 after a 30 second
delay, returning no mutated config. -/
theorem duplicateBroadcast_fatal (txConfig : TransactionConfig) (msg : String)
    (h : strIncludes msg "Transaction with the same hash was already imported" = true ∨
      strIncludes msg "nonce has already been used" = true) :
    updateTransactionConfig txConfig (.plain msg) =
      .error (some 30000, .indexer .IE058) := by
  unfold updateTransactionConfig
  rcases h with h | h <;> simp [h]

/-- C5 witness: a concrete duplicate-nonce message. -/
theorem duplicateBroadcast_fatal_witness :
    updateTransactionConfig cfgA (.plain "ETH node: nonce has already been used") =
      .error (some 30000, .indexer .IE058) :=
  duplicateBroadcast_fatal cfgA _ (Or.inr (by decide))

/-- C7: a nonce-too-low classification increments the nonce by exactly
one and, besides the attempt counter, changes nothing else (the
record-update form fixes every other field). -/
theorem nonceTooLow_bumpsNonceOnly (txConfig : TransactionConfig) (msg : String)
    (hdup1 : strIncludes msg "Transaction with the same hash was already imported" = false)
    (hdup2 : strIncludes msg "nonce has already been used" = false)
    (hlow : strIncludes msg "Transaction nonce is too low. Try incrementing the nonce." = true) :
    updateTransactionConfig txConfig (.plain msg) =
      .ok { txConfig with nonce := txConfig.nonce + 1, attempt := txConfig.attempt + 1 } := by
  unfold updateTransactionConfig
  simp [hdup1, hdup2, hlow]

/-- C7 witness: the exact client message, on a concrete config. -/
theorem nonceTooLow_bumpsNonceOnly_witness :
    updateTransactionConfig cfgA
        (.plain "Transaction nonce is too low. Try incrementing the nonce.") =
      .ok { cfgA with nonce := 6, attempt := 2 } :=
  nonceTooLow_bumpsNonceOnly cfgA _ (by decide) (by decide) (by decide)

/-- C6: a fee-too-low / timeout classification replaces the fee field
with `value * factor / 1000` (integer permille arithmetic) on the
config it was handed: `gasPrice` for legacy configs, both
`maxFeePerGas` and `maxPriorityFeePerGas` (same factor) for type-2
configs. -/
theorem feeTooLow_bumpPermille (txConfig : TransactionConfig) (msg : String)
    (hdup1 : strIncludes msg "Transaction with the same hash was already imported" = false)
    (hdup2 : strIncludes msg "nonce has already been used" = false)
    (hnl : strIncludes msg "Transaction nonce is too low. Try incrementing the nonce." = false)
    (hfee : strIncludes msg "Try increasing the fee" = true ∨
      strIncludes msg "gas price supplied is too low" = true ∨
      strIncludes msg "timeout exceeded" = true) :
    (∀ p, txConfig.type = .ZERO → txConfig.gasPrice = some p →
      updateTransactionConfig txConfig (.plain msg) =
        .ok { txConfig with
                gasPrice := some (p * txConfig.gasBump / 1000),
                attempt := txConfig.attempt + 1 }) ∧
    (∀ f pr, txConfig.type = .TWO → txConfig.maxFeePerGas = some f →
      txConfig.maxPriorityFeePerGas = some pr →
      updateTransactionConfig txConfig (.plain msg) =
        .ok { txConfig with
                maxFeePerGas := some (f * txConfig.gasBump / 1000),
                maxPriorityFeePerGas := some (pr * txConfig.gasBump / 1000),
                attempt := txConfig.attempt + 1 }) := by
  constructor
  · intro p ht hp
    unfold updateTransactionConfig
    rcases hfee with h | h | h <;> simp [hdup1, hdup2, hnl, h, ht, hp]
  · intro f pr ht hf hpr
    unfold updateTransactionConfig
    rcases hfee with h | h | h <;> simp [hdup1, hdup2, hnl, h, ht, hf, hpr]

/-- C6 witness: with factor 1200 a starting `gasPrice` of 100 becomes
120 after one classification and, fed the mutated config, 144 after a
second — the bump compounds on the mutated config. -/
theorem feeTooLow_bumpPermille_witness :
    updateTransactionConfig cfgA (.plain "timeout exceeded") =
      .ok { cfgA with gasPrice := some 120, attempt := 2 } ∧
    updateTransactionConfig { cfgA with gasPrice := some 120, attempt := 2 }
        (.plain "timeout exceeded") =
      .ok { cfgA with gasPrice := some 144, attempt := 3 } := by
  constructor
  · exact (feeTooLow_bumpPermille cfgA "timeout exceeded"
      (by decide) (by decide) (by decide) (Or.inr (Or.inr (by decide)))).1 100 rfl rfl
  · exact (feeTooLow_bumpPermille { cfgA with gasPrice := some 120, attempt := 2 }
      "timeout exceeded"
      (by decide) (by decide) (by decide) (Or.inr (Or.inr (by decide)))).1 120 rfl rfl

set_option maxRecDepth 8000 in
/-- C1 counterexample: a concrete run whose first attempt ends in a
status-0 receipt with diagnosed reason `"AB"` (neither out-of-gas nor
unknown) does not abort: the engine resubmits (a `sendTransaction`
effect follows the diagnosis) and ends with the second attempt's
successful receipt, not a raised error. -/
theorem claim_c1_counterexample :
    (executeTransaction specA envC1).1 = .receipt ⟨1⟩ ∧
    Effect.sendTransaction
        (mkTxRequest txA { cfgA with attempt := 2, nonce := 7, gasLimit := 31500, gasPrice := some 50 }) ∈
      (executeTransaction specA envC1).2 := by
  constructor <;> decide

/-- C1 amended: a status-0 receipt whose diagnosed reason is neither
"out of gas" nor "unknown" raises IE057 inside the loop, but the
classifier does not recognize IE057: the iteration continues with the
config unchanged except `attempt + 1`, so the engine retries instead
of aborting. -/
theorem otherRevertReason_retries (tx : ContractTransaction)
    (txRequest : Option TransactionRequest) (txConfig : TransactionConfig)
    (oc : AttemptOutcome) (effs : List Effect) (receipt : TransactionReceipt)
    (reason : String)
    (hw : oc.waitResult = .ok receipt) (hs : receipt.status = 0)
    (hr : getRevertReason oc.revertCall = .ok reason)
    (h1 : reason ≠ "out of gas") (h2 : reason ≠ "unknown") :
    execStepAfterSend tx txRequest txConfig oc effs =
      (.cont tx txRequest { txConfig with attempt := txConfig.attempt + 1 },
        effs ++ [.revertDiagnosis txRequest]) := by
  simp [execStepAfterSend, hw, hs, hr, h1, h2, classifyStep, updateTransactionConfig]

set_option maxRecDepth 8000 in
/-- C1 amended witness: diagnosed reason `"AB"` on a concrete first
attempt continues the loop with only the attempt counter bumped. -/
theorem otherRevertReason_retries_witness :
    execStepAfterSend txA none cfgA ocAB [] =
      (.cont txA none { cfgA with attempt := 2 }, [.revertDiagnosis none]) :=
  otherRevertReason_retries txA none cfgA ocAB [] ⟨0⟩ "AB" rfl rfl
    (by decide) (by decide) (by decide)

/-- C2 counterexample: with ceiling 100, a legacy snapshot whose
reference fee is exactly 100 is not accepted — the loop issues a delay
and polls again (here exhausting the poll list) instead of returning
the snapshot. -/
theorem claim_c2_counterexample :
    waitForGasPricesBelowThreshold 100 [⟨some 100, none, none⟩] 0 = .diverged 1 := by
  decide

/-- C2 amended: the fee wait returns the first polled snapshot whose
reference fee — `(maxFeePerGas - maxPriorityFeePerGas) / 2` for the
modern mechanism, `gasPrice` for legacy — is strictly below the
ceiling (nulling `gasPrice` on the modern path); any snapshot at or
above the ceiling, including one exactly equal to it, causes a wait
and another poll. -/
theorem waitForGasPrices_strictly_below (maxFee : Nat) (feeData : FeeData)
    (rest : List FeeData) (waits : Nat) (t : TransactionType)
    (ht : transactionType feeData = .ok t) :
    (referenceFee t feeData < (maxFee : Int) →
      waitForGasPricesBelowThreshold maxFee (feeData :: rest) waits =
        .settled (if t = .TWO then { feeData with gasPrice := none } else feeData) waits) ∧
    ((maxFee : Int) ≤ referenceFee t feeData →
      waitForGasPricesBelowThreshold maxFee (feeData :: rest) waits =
        waitForGasPricesBelowThreshold maxFee rest (waits + 1)) := by
  refine ⟨?_, ?_⟩ <;> intro h
  · have h' : ¬ ((maxFee : Int) ≤ referenceFee t feeData) := not_le.mpr h
    cases t <;> simp [waitForGasPricesBelowThreshold, ht, ge_iff_le, h']
  · cases t <;> simp [waitForGasPricesBelowThreshold, ht, ge_iff_le, h]

/-- C2 amended witness: ceiling 100 against the source sequence
150, 120, 90 settles on the third poll (reference fee 90) after
exactly two waits. -/
theorem waitForGasPrices_strictly_below_witness :
    waitForGasPricesBelowThreshold 100 pollsB 0 = .settled ⟨some 90, none, none⟩ 2 := by
  have h1 := (waitForGasPrices_strictly_below 100 ⟨some 150, none, none⟩
    [⟨some 120, none, none⟩, ⟨some 90, none, none⟩] 0 .ZERO (by decide)).2 (by decide)
  have h2 := (waitForGasPrices_strictly_below 100 ⟨some 120, none, none⟩
    [⟨some 90, none, none⟩] 1 .ZERO (by decide)).2 (by decide)
  have h3 := (waitForGasPrices_strictly_below 100 ⟨some 90, none, none⟩
    [] 2 .ZERO (by decide)).1 (by decide)
  show waitForGasPricesBelowThreshold 100
    (⟨some 150, none, none⟩ :: [⟨some 120, none, none⟩, ⟨some 90, none, none⟩]) 0 = _
  rw [h1, h2, h3]
  decide

/-- C3: with a nonzero configured attempt limit, once the config's
attempt counter exceeds it the loop issues a 30 second delay and exits
without raising, yielding the undefined `output!` rather than a
receipt or a distinct terminal value. -/
theorem attemptLimit_givesUp (spec : TransactionMonitoring)
    (ocs : List AttemptOutcome) (tx : ContractTransaction)
    (txRequest : Option TransactionRequest) (txConfig : TransactionConfig)
    (hne : spec.maxTransactionAttempts ≠ 0)
    (hgt : txConfig.attempt > spec.maxTransactionAttempts) :
    execLoop spec ocs tx txRequest txConfig = (.undefinedResult, [.delayMs 30000]) := by
  cases ocs <;> simp [execLoop, hne, hgt]

/-- C3 witness: limit 3, attempt counter 4. -/
theorem attemptLimit_givesUp_witness :
    execLoop specB [ocOk] txA none { cfgA with attempt := 4 } =
      (.undefinedResult, [.delayMs 30000]) :=
  attemptLimit_givesUp specB [ocOk] txA none { cfgA with attempt := 4 }
    (by decide) (by decide)

/-- C8: gating short-circuits — a paused network returns `paused` with
an empty effect trace (no fee-policy, estimator or builder call), and
an unpaused network without operator authorization likewise returns
`unauthorized` with an empty trace. -/
theorem gating_short_circuits (spec : TransactionMonitoring) (env : ExecEnv) :
    (env.paused = true → executeTransaction spec env = (.paused, [])) ∧
    (env.paused = false → env.isOperator = false →
      executeTransaction spec env = (.unauthorized, [])) := by
  constructor
  · intro h; simp [executeTransaction, h]
  · intro h1 h2; simp [executeTransaction, h1, h2]

/-- C8 witness: both gates on concrete environments. -/
theorem gating_short_circuits_witness :
    executeTransaction specA envPaused = (.paused, []) ∧
    executeTransaction specA envUnauth = (.unauthorized, []) :=
  ⟨(gating_short_circuits specA envPaused).1 rfl,
   (gating_short_circuits specA envUnauth).2 rfl rfl⟩

/-- The `.find` scan agrees with `List.find?` on the case-insensitive
field predicate whenever every scanned decoded event defines the
field. -/
theorem findMatching_eq_find? (logKey logValue : String)
    (l : List (List (String × String)))
    (h : ∀ d ∈ l, (lookupField d logKey).isSome) :
    findMatching logKey logValue l =
      .ok (l.find?
        (fun d => decide (toLowerStr ((lookupField d logKey).getD "") = toLowerStr logValue))) := by
  induction l with
  | nil => rfl
  | cons d rest ih =>
    have hd := h d (List.mem_cons_self d rest)
    obtain ⟨v, hv⟩ := Option.isSome_iff_exists.mp hd
    have hrest := fun d' hd' => h d' (List.mem_cons_of_mem d hd')
    by_cases hc : toLowerStr v = toLowerStr logValue
    · simp [findMatching, List.find?, hv, hc]
    · simp [findMatching, List.find?, hv, hc, ih hrest]

/-- C9: `findEvent` filters the receipt's log entries to those whose
topics include the event's signature topic, decodes each, and returns
the first decoded event whose `logKey` field equals `logValue`
case-insensitively; when no decoded event matches it returns `none`
without raising (given that each scanned decoded event defines the
queried field, as ABI decoding of the named event guarantees). -/
theorem findEvent_first_match (eventType : String) (ci : ContractInterface)
    (logKey logValue : String) (receipt : ContractReceipt)
    (h : ∀ d ∈ decodedMatchingEvents eventType ci receipt,
      (lookupField d logKey).isSome) :
    findEvent eventType ci logKey logValue receipt =
      .ok ((decodedMatchingEvents eventType ci receipt).find?
        (fun d => decide (toLowerStr ((lookupField d logKey).getD "") = toLowerStr logValue))) :=
  findMatching_eq_find? logKey logValue _ h

/-- C9 witness: a receipt with three log entries, two matching the
topic, carrying `"to"` fields `0xA` and `0xB`: querying `0xb`
(case-insensitive) returns the `0xB` event, querying `0xC` returns
`none` without raising. -/
theorem findEvent_first_match_witness :
    findEvent "Transfer" ciW "to" "0xb" receiptW = .ok (some [("to", "0xB")]) ∧
    findEvent "Transfer" ciW "to" "0xC" receiptW = .ok none :=
  ⟨(findEvent_first_match "Transfer" ciW "to" "0xb" receiptW (by decide)).trans (by decide),
   (findEvent_first_match "Transfer" ciW "to" "0xC" receiptW (by decide)).trans (by decide)⟩

/-- C10: on the very first attempt (`attempt = 1`, `txRequest` still
`undefined` at loop entry) a status-0 receipt invokes the revert
diagnoser with no transaction request — the replayed call does not
operate on the transaction actually sent on attempt 1. -/
theorem firstAttempt_diagnosis_no_request (tx : ContractTransaction)
    (txConfig : TransactionConfig) (oc : AttemptOutcome)
    (receipt : TransactionReceipt)
    (h1 : txConfig.attempt = 1) (h2 : oc.waitResult = .ok receipt)
    (h3 : receipt.status = 0) :
    Effect.revertDiagnosis none ∈ (execStep tx none txConfig oc).2 := by
  have hnot : ¬ txConfig.attempt > 1 := by omega
  rw [execStep, if_neg hnot]
  rw [execStepAfterSend, h2]
  simp only [h3, if_pos rfl]
  rcases hgr : getRevertReason oc.revertCall with e | reason
  · rcases hup : updateTransactionConfig txConfig e with p | c <;>
      simp [classifyStep, hup]
  · rcases hup : updateTransactionConfig txConfig
        (if reason = "out of gas" then .indexer .IE050
         else if reason = "unknown" then .indexer .IE051
         else .indexer .IE057) with p | c <;>
      simp [classifyStep, hup]

/-- C10 witness: concrete first attempt ending in a status-0 receipt. -/
theorem firstAttempt_diagnosis_no_request_witness :
    Effect.revertDiagnosis none ∈ (execStep txA none cfgA ocAB).2 :=
  firstAttempt_diagnosis_no_request txA cfgA ocAB ⟨0⟩ rfl rfl rfl
